import Mathlib

/-!
Verification of the SMS transaction decoding engine (`src/decoder.py`).

The engine is embedded shallowly:

* Python dicts with string keys are association lists over `PyVal`, a small
  universe of the dynamic values the engine actually stores (`bool`, `str`,
  `None`), so that the Python cross-type `==` can be modelled faithfully.
* `re.match` is abstracted as a parameter
  `M : α → String → Option (List (Option String))` (pattern, body ↦ groups of
  the match, if any); the registry patterns are carried as their raw source
  strings.  For the anchoring property an executable regex semantics over an
  AST is instantiated for the same generic `decode`.
* Keyword containment (`kw in body`) is substring containment on char lists.
-/

set_option autoImplicit false
set_option maxRecDepth 100000

namespace SmsDecoder

/-- A message: normalized sender identifier and normalized body
(dataclass `SMS` in `decoder.py`). -/
structure SMS where
  address : String
  body : String
deriving DecidableEq, Repr

/-- The dynamic Python values the engine stores in its result dict. -/
inductive PyVal where
  | vBool (b : Bool)
  | vStr (s : String)
  | vNone
deriving DecidableEq, Repr

/-- Python `==` restricted to the values above: equal within one type,
`False` across types (`True == "unknown"` is `False`). -/
def pyEq : PyVal → PyVal → Bool
  | .vBool a, .vBool b => a == b
  | .vStr a, .vStr b => a == b
  | .vNone, .vNone => true
  | _, _ => false

/-- A Python dict with string keys, as an insertion-ordered association list. -/
abbrev Dict := List (String × PyVal)

/-- Python `d[k] = v`: replace in place if the key exists, else append. -/
def dictSet : Dict → String → PyVal → Dict
  | [], k, v => [(k, v)]
  | (k1, v1) :: rest, k, v =>
    if k1 == k then (k1, v) :: rest else (k1, v1) :: dictSet rest k v

/-- Python `d.get(k)`. -/
def dictGet : Dict → String → Option PyVal
  | [], _ => Option.none
  | (k1, v1) :: rest, k => if k1 == k then some v1 else dictGet rest k

/-- Python `k in d`. -/
def dictContains (d : Dict) (k : String) : Bool :=
  (dictGet d k).isSome

/-- Tests whether `kw` is a leading segment of `s` (startswith on char lists). -/
def listStartsWith : List Char → List Char → Bool
  | [], _ => true
  | _ :: _, [] => false
  | a :: as, b :: bs => (a == b) && listStartsWith as bs

/-- Tests whether `kw` occurs as a contiguous segment of `s`. -/
def listSub (kw : List Char) : List Char → Bool
  | [] => listStartsWith kw []
  | b :: bs => listStartsWith kw (b :: bs) || listSub kw bs

/-- Python `kw in body` on strings: substring containment. -/
def pyContains (body kw : String) : Bool :=
  listSub kw.data body.data

/-- One extraction pattern: a matcher (of pattern representation `α`) plus the
`attributes` field map from field name to capture-group index. -/
structure Pattern (α : Type) where
  pattern : α
  attributes : List (String × Nat)
deriving DecidableEq, Repr

/-- The data a `TransactionSMSDecoder` subclass carries: keyword lists and the
per-direction pattern table.  Subclassing in the source only overrides these
class attributes, never the methods, so each subclass is one such record. -/
structure DecoderCfg (α : Type) where
  patterns : List (String × List (Pattern α))
  debit_keywords : List String
  credit_keywords : List String
  legal_tnx_keywords : List String
  illegal_tnx_keywords : List String
deriving DecidableEq, Repr

/-- Key `TransactionSMSDecoder.SMS_TYPE_FIELD`. -/
def SMS_TYPE_FIELD : String := "sms_type"

/-- Key `TransactionSMSDecoder.TNX_TYPE_FIELD`. -/
def TNX_TYPE_FIELD : String := "tnx_type"

/-- Key `TransactionSMSDecoder.SENDER_FIELD`. -/
def SENDER_FIELD : String := "sender"

/-- Key `TransactionSMSDecoder.RECEIVER_FIELD`. -/
def RECEIVER_FIELD : String := "receiver"

/-- Key `TransactionSMSDecoder.DATE_FIELD`. -/
def DATE_FIELD : String := "date"

/-- Key `TransactionSMSDecoder.REF_NO_FIELD`. -/
def REF_NO_FIELD : String := "ref_no"

/-- Key `TransactionSMSDecoder.AMOUNT_FIELD`. -/
def AMOUNT_FIELD : String := "amount"

/-- Method `TransactionSMSDecoder.is_transaction_sms`: some legal keyword occurs in
the body and no illegal keyword does. -/
def is_transaction_sms {α : Type} (cfg : DecoderCfg α) (sms : SMS) : Bool :=
  (cfg.legal_tnx_keywords.any fun keyword => pyContains sms.body keyword) &&
  (cfg.illegal_tnx_keywords.all fun keyword => !pyContains sms.body keyword)

/-- Method `TransactionSMSDecoder.get_tnx_type`: scan the debit keywords in order,
then the credit keywords, returning on the first containment match. -/
def get_tnx_type {α : Type} (cfg : DecoderCfg α) (sms : SMS) : String :=
  match cfg.debit_keywords.find? (fun keyword => pyContains sms.body keyword) with
  | some _ => "debit"
  | Option.none =>
    match cfg.credit_keywords.find? (fun keyword => pyContains sms.body keyword) with
    | some _ => "credit"
    | Option.none => "unknown"

/-- Assoc-list lookup, standing for Python `dict.get` on the pattern table. -/
def lookupAssoc {β : Type} : List (String × β) → String → Option β
  | [], _ => Option.none
  | (k1, v1) :: rest, k => if k1 == k then some v1 else lookupAssoc rest k

/-- A `None`-or-string capture value as a `PyVal`. -/
def optVal : Option String → PyVal
  | some s => .vStr s
  | Option.none => .vNone

/-- Lines 50–54 of `decode`: initialize the five extraction fields to `None`
(only executed once a pattern has matched). -/
def setNullFields (result : Dict) : Dict :=
  dictSet (dictSet (dictSet (dictSet (dictSet result
    SENDER_FIELD .vNone) RECEIVER_FIELD .vNone) DATE_FIELD .vNone)
    REF_NO_FIELD .vNone) AMOUNT_FIELD .vNone

/-- Lines 55–57 of `decode`: `result[attribute] = groups[pos]` for each entry
of the field map.  Out-of-range indexing, an `IndexError` in Python, is mapped
to `None` here; the registry validation theorem shows it cannot arise for any
registered pattern. -/
def applyAttrs (groups : List (Option String)) (attrs : List (String × Nat))
    (result : Dict) : Dict :=
  attrs.foldl (fun r ap => dictSet r ap.1 (optVal ((groups.get? ap.2).join))) result

/-- The pattern loop of `decode` (lines 47–58): try each pattern in order;
on the first match null the five fields, write the mapped groups, and stop. -/
def decodeLoop {α : Type} (M : α → String → Option (List (Option String)))
    (body : String) : List (Pattern α) → Dict → Dict
  | [], result => result
  | p :: rest, result =>
    match M p.pattern body with
    | some groups => applyAttrs groups p.attributes (setNullFields result)
    | Option.none => decodeLoop M body rest result

/-- Method `TransactionSMSDecoder.decode`, generic over the matcher `M` standing for
`re.match` and over the pattern representation `α`. -/
def decode {α : Type} (M : α → String → Option (List (Option String)))
    (cfg : DecoderCfg α) (sms : SMS) : Dict :=
  let result := dictSet [] SMS_TYPE_FIELD (.vBool (is_transaction_sms cfg sms))
  if is_transaction_sms cfg sms = false then result
  else
    let result := dictSet result TNX_TYPE_FIELD (.vStr (get_tnx_type cfg sms))
    let pats := (lookupAssoc cfg.patterns (get_tnx_type cfg sms)).getD []
    decodeLoop M sms.body pats result

/-!
### Capture-group counting for the registered patterns

`countGroups` counts the capturing groups of a Python regex source string the
way `re` numbers them: an unescaped `(` outside a character class opens a
group, unless it starts a `(?...)` extension construct (none of the
registered patterns uses one).  Escapes (`\(`), classes (`[...]`, in which
parentheses are literals) are skipped.
-/

/-- Scanner state: `esc` — the previous char was a backslash; `incls` — inside
a `[...]` character class. -/
def countGroupsAux : List Char → Bool → Bool → Nat
  | [], _, _ => 0
  | c :: rest, esc, incls =>
    if esc then countGroupsAux rest false incls
    else if c == '\\' then countGroupsAux rest true incls
    else if incls then
      if c == ']' then countGroupsAux rest false false
      else countGroupsAux rest false true
    else if c == '[' then countGroupsAux rest false true
    else if c == '(' then
      (if rest.head? == some '?' then 0 else 1) + countGroupsAux rest false false
    else countGroupsAux rest false false

/-- Number of capturing groups of a regex source string. -/
def countGroups (pat : String) : Nat :=
  countGroupsAux pat.data false false

/-!
### An executable anchored regex semantics

`re.match` (as opposed to `re.search`) anchors the attempt at index 0 of the
subject: it succeeds exactly when some leading segment of the subject matches
the pattern.  The semantics below (Brzozowski derivatives over a small regex
AST) models exactly that anchored behaviour; capture extraction is not
modelled (the groups of a successful match are abstracted), since only
match/no-match is at stake for the anchoring property.
-/

/-- Regex AST: character class (positive or negated list), wildcard `.`,
empty word, concatenation, alternation, Kleene star. -/
inductive Regex where
  | emp
  | eps
  | cls (neg : Bool) (cs : List Char)
  | wild
  | cat (r1 r2 : Regex)
  | alt (r1 r2 : Regex)
  | star (r : Regex)
deriving DecidableEq, Repr

/-- Does the regex accept the empty word? -/
def Regex.nullable : Regex → Bool
  | .emp => false
  | .eps => true
  | .cls _ _ => false
  | .wild => false
  | .cat r1 r2 => r1.nullable && r2.nullable
  | .alt r1 r2 => r1.nullable || r2.nullable
  | .star _ => true

/-- Does the single character `c` satisfy this class/wildcard atom? -/
def Regex.atomMatches (c : Char) : Regex → Bool
  | .cls false cs => cs.contains c
  | .cls true cs => !cs.contains c
  | .wild => c != '\n'
  | _ => false

/-- Brzozowski derivative: the language of words `w` with `c :: w` accepted. -/
def Regex.deriv (c : Char) : Regex → Regex
  | .emp => .emp
  | .eps => .emp
  | .cls neg cs => if Regex.atomMatches c (.cls neg cs) then .eps else .emp
  | .wild => if Regex.atomMatches c .wild then .eps else .emp
  | .cat r1 r2 =>
    if r1.nullable then .alt (.cat (r1.deriv c) r2) (r2.deriv c)
    else .cat (r1.deriv c) r2
  | .alt r1 r2 => .alt (r1.deriv c) (r2.deriv c)
  | .star r => .cat (r.deriv c) (.star r)

/-- Anchored match: the regex accepts some leading segment of the word (this
is what `re.match` tests, in contrast to `re.search`). -/
def matchesFromStart (r : Regex) : List Char → Bool
  | [] => r.nullable
  | c :: rest => r.nullable || matchesFromStart (r.deriv c) rest

/-- The regex accepts some segment starting at offset `i` of the word. -/
def matchesAt (r : Regex) (s : List Char) (i : Nat) : Bool :=
  matchesFromStart r (s.drop i)

/-- Model of `re.match` over the AST semantics, in the shape `decode` expects: the
groups of a successful match are abstracted as an empty list. -/
def regexMatch (r : Regex) (s : String) : Option (List (Option String)) :=
  if matchesFromStart r s.data then some [] else Option.none

/-!
### The decoder registry

Each subclass of `TransactionSMSDecoder` only overrides class-level data, so
it is embedded as a `DecoderCfg String` record carrying the raw regex source
strings.  Fields not overridden by a subclass keep the base-class value.
-/

/-- Base class `debit_keywords`. -/
def debit_keywords_base : List String :=
  ["debited", "automatic payment of", " dr ", "withdrawn"]

/-- Base class `credit_keywords`. -/
def credit_keywords_base : List String :=
  ["received", "credited", " cr ", "deposited"]

/-- Base class `legal_tnx_keywords`. -/
def legal_tnx_keywords_base : List String :=
  ["received", "debited", "credited", "withdrawn", "deposited", " cr ", " dr "]

/-- Base class `illegal_tnx_keywords`. -/
def illegal_tnx_keywords_base : List String := []

/-- A registry entry: the subclass name (used by the driver\x27s diagnostics)
and its configuration. -/
structure DecoderEntry where
  className : String
  cfg : DecoderCfg String
deriving DecidableEq, Repr

/-- Class `PaytmTransactionSMSDecoder` of `decoder.py`. -/
def PaytmTransactionSMSDecoder : DecoderCfg String where
  patterns :=
  [
    ("debit",
     [
      { pattern := r"([a-z\d\.]+) is debited from your account ([a-z\d]+) for debit card annual charges of [a-z\d\.]+\. remaining amount to be debited [a-z\d\.]+\. ref id ([\d]+) :ppbl",
        attributes := [("amount", 0), ("sender", 1), ("ref_no", 2)] },
      { pattern := r"your automatic payment of ([a-z\d\.]+) has been successfully executed on ([\d\-]+) towards ([a-z ]+), ([\d]+)\. [\W\w]+ :ppbl",
        attributes := [("amount", 0), ("date", 1), ("receiver", 2), ("ref_no", 3)] }
     ]),
    ("credit",
     [
      { pattern := r"received ([a-z\d\.]+) in your a/c ([a-z\d]+) from ([a-z\d ]+) on ([\d\-]+)\.ref no: ([a-z\d]+)\. queries\? call ([\d]+) :ppbl",
        attributes := [("amount", 0), ("receiver", 1), ("sender", 2), ("date", 3), ("ref_no", 4)] },
      { pattern := r"received ([a-z\d\.]+) in your a/c ([a-z\d]+) from ([a-z\d /()]+) on ([\d\-]+)\. (neft|imps) ref no: ([a-z\d]+)\. (queries\? call [\d]+ )?:ppbl",
        attributes := [("amount", 0), ("receiver", 1), ("sender", 2), ("date", 3), ("ref_no", 5)] },
      { pattern := r"([a-z\d\.]+) has been credited back to your account ([x \d]+)\. upi ref no: ([\d]+) :ppbl",
        attributes := [("amount", 0), ("receiver", 1), ("ref_no", 2)] },
      { pattern := r"([a-z\d\.]+) received from ([a-z\d ]+) in your paytm payments bank a/c ([a-z\d]+)\. upi ref: ([\d]+) avl bal: [a-z\d\.]+\. :ppbl",
        attributes := [("amount", 0), ("sender", 1), ("receiver", 2), ("ref_no", 3)] },
      { pattern := r"([a-z \d\.,]+) deposited in your paytm wallet linked with mobile no .*",
        attributes := [("amount", 0)] }
     ])
  ]
  debit_keywords := debit_keywords_base
  credit_keywords := credit_keywords_base
  legal_tnx_keywords := legal_tnx_keywords_base ++ ["successfully executed"]
  illegal_tnx_keywords := ["will be"]

/-- Class `IcicibTransactionSMSDecoder` of `decoder.py`. -/
def IcicibTransactionSMSDecoder : DecoderCfg String where
  patterns :=
  [
    ("credit",
     [
      { pattern := r"your icici bank acct ([x\d]+) is credited with ([a-z\d\. ]+) on ([a-z\d\-]+) by acct ([x\d]+)\. imps ref\. no\. ([\d]+)\.",
        attributes := [("amount", 1), ("receiver", 0), ("sender", 3), ("date", 2), ("ref_no", 4)] },
      { pattern := r"dear customer, acct ([x\d]+) is credited with ([a-z\d\. ]+) on ([a-z\d\-]+) from ([a-z \d\.]+)\. upi:([\d]+)-icici bank\.",
        attributes := [("amount", 1), ("receiver", 0), ("date", 2), ("sender", 3), ("ref_no", 4)] },
      { pattern := r"icici bank account ([x\d]+) is credited with ([a-z\d\. ,]+) on ([a-z\-\d]+) by account linked to mobile number .+\. imps ref\. no\. ([\d]+)\.",
        attributes := [("amount", 1), ("receiver", 0), ("date", 2), ("ref_no", 3)] },
      { pattern := r"dear customer, your icici bank account ([x\d]+) has been credited with ([a-z\d\. ,]+) on ([\da-z\-]+)\. info:.+\. the available balance is .+",
        attributes := [("amount", 1), ("receiver", 0), ("date", 2)] },
      { pattern := r"your icici bank acct ([x\d]+) is credited with ([a-z \d\.,]+) on ([a-z\d\-]+) by acct ([x\d]+)\. imps ref\. no\. ([\d]+)\.",
        attributes := [("amount", 1), ("receiver", 0), ("date", 2), ("sender", 3), ("ref_no", 4)] },
      { pattern := r"dear customer, payment of ([a-z \d\.,]+) has been received on your icici bank credit card account ([x\d]+) on ([a-z\d\-]+)\.thank you\.",
        attributes := [("amount", 0), ("receiver", 1), ("date", 2)] },
      { pattern := r"dear customer, payment of ([a-z \d\.,]+) has been received towards your icici bank credit card ([x\d]+) on ([\da-z\-]+) through upi\. thank you\.",
        attributes := [("amount", 0), ("receiver", 1), ("date", 2)] },
      { pattern := r"dear customer, account ([x\d]+) is credited with ([a-z \d\.,]+) on ([a-z\d\-]+) from ([a-z \W\d]+)\. upi ref\. no\. ([\d]+) - icici bank\.",
        attributes := [("receiver", 0), ("amount", 1), ("date", 2), ("sender", 3), ("ref_no", 4)] }
     ]),
    ("debit",
     [
      { pattern := r"dear customer, icici bank fastag linked vehicle no\. ([a-z\d]+) has been debited with ([a-z\d\. ]+) on ([\d\- :]+) for toll charges with trip number ([\d]+) at [a-z\d \.]+ on ([\d\- :]+)\. avl\. bal\. is [a-z\d \-\.]+\. call [\d]+ in case of dispute\.",
        attributes := [("amount", 1), ("receiver", 0), ("date", 2), ("ref_no", 3)] },
      { pattern := r"icici bank acct ([x\d]+) debited for ([a-z\d \.]+) on ([a-z\d\-]+); ([a-z\d \.]+) credited\. upi:(\d+)\. call .+ for dispute\. sms block .+ to .+\.",
        attributes := [("amount", 1), ("sender", 0), ("receiver", 3), ("date", 2), ("ref_no", 4)] },
      { pattern := r"icici bank acct ([x\d]+) debited (with|for) ([a-z\d\. ]+) on ([a-z\d\-]+)(\.|;|,| &) ([a-z\d\W]+) credited\. ?upi:([\d]+)\..*",
        attributes := [("amount", 2), ("sender", 0), ("receiver", 5), ("date", 3), ("ref_no", 6)] },
      { pattern := r"icici bank acc ([x\d]+) debited with ([a-z\d,\. ]+) on ([a-z\d\-]+)\. info:.+\.avb bal: [a-z\d\.,]+\. for dispute\,call .+ or sms block .+ to .+",
        attributes := [("amount", 1), ("sender", 0), ("date", 2)] },
      { pattern := r"dear customer, icici bank (account|acct) ([x\d]+)( is)? debited with ([a-z\d\. ,]+) on ([a-z\d\-]+)\..*",
        attributes := [("amount", 3), ("sender", 1), ("date", 4)] },
      { pattern := r"dear customer, ([a-z\d\., ]+) is debited on icici bank credit card ([x\d]+) on ([a-z\d\-]+)\..+",
        attributes := [("amount", 0), ("sender", 1), ("date", 2)] }
     ])
  ]
  debit_keywords := debit_keywords_base
  credit_keywords := credit_keywords_base
  legal_tnx_keywords := legal_tnx_keywords_base
  illegal_tnx_keywords := ["requested", "will be", "delivered"]

/-- Class `KotakbTransactionSMSDecoder` of `decoder.py`. -/
def KotakbTransactionSMSDecoder : DecoderCfg String where
  patterns :=
  [
    ("credit",
     [
      { pattern := r"([a-z\d\.]+) is credited in your kotak bank a\/c ([x\d]+) by upi id ([\W\w]+) on ([\-\d]+) \(upi ref no ([\d]+)\)\..+",
        attributes := [("amount", 0), ("receiver", 1), ("sender", 2), ("date", 3), ("ref_no", 4)] },
      { pattern := r"thank you for (the|your) payment of ([a-z\.\d ]+) for .+ ([x\d]+) received .+ on ([a-z\d\-]+).*",
        attributes := [("amount", 1), ("receiver", 2), ("date", 3)] },
      { pattern := r"([a-z\d\.]+) is credited to kotak bank a\/c no\. ([x\d]+) on ([a-z\d\-]+) as a reversal of debit transaction \(upi ref no ([\d]+)\)\..*",
        attributes := [("amount", 0), ("receiver", 1), ("date", 2), ("ref_no", 3)] },
      { pattern := r"([a-z\d \.,]+) ?credited to a\/c ([x\d]+) ?via neft from ([a-z\d ]+) ?- utr ref ([a-z\d]+);.*",
        attributes := [("amount", 0), ("receiver", 1), ("sender", 2), ("ref_no", 3)] },
      { pattern := r"([a-z\d\.,]+) cr on ([a-z\d\-]+) to kotak bank ac ([x\d]+) by ac linked to mobile .+\. ?utr ?- ?([a-z\d]+)\..*",
        attributes := [("amount", 0), ("date", 1), ("receiver", 2), ("ref_no", 3)] }
     ]),
    ("debit",
     [
      { pattern := r"([a-z\d\.]+) is debited from kotak bank a\/c ([x\d]+) to ([\W\w]+) on ([a-z\d\-]+)\..+",
        attributes := [("amount", 0), ("sender", 1), ("receiver", 2), ("date", 3)] },
      { pattern := r"([a-z\d\. ,]+) is debited from kotak bank a\/c\/ credit card no. ([x\d]+) for ([a-z \d()]+) on ([a-z\d\- :]+)\. ref no: ([a-z\d]+)\..*",
        attributes := [("amount", 0), ("sender", 1), ("receiver", 2), ("date", 3), ("ref_no", 4)] },
      { pattern := r"([a-z\d\., ]+) dr frm kotak bank ac ([x\d]+) to ac ([x\d]+)\. utr ?- ?([a-z\d]+)\..*",
        attributes := [("amount", 0), ("sender", 1), ("receiver", 2), ("ref_no", 3)] },
      { pattern := r"([a-z\d\., ]+) dr frm kotak bank ac ([x\d]+) to ([a-z\d ]+) on ([a-z\d\-]+) utr ?- ?([a-z\d]+)\..*",
        attributes := [("amount", 0), ("sender", 1), ("receiver", 2), ("date", 3), ("ref_no", 4)] }
     ])
  ]
  debit_keywords := debit_keywords_base
  credit_keywords := credit_keywords_base
  legal_tnx_keywords := legal_tnx_keywords_base
  illegal_tnx_keywords := ["requested", "will be", "delivered", "earn"]

/-- Class `IndbnkTransactionSMSDecoder` of `decoder.py`. -/
def IndbnkTransactionSMSDecoder : DecoderCfg String where
  patterns :=
  [
    ("credit",
     [
      { pattern := r"your a/c. ([x\d]+) is credited by ([a-z\d\. ,]+) on ([\d\-]+) by a/c linked to mobile .+ \(imps ref no. ([a-z\d]+)\)\..*",
        attributes := [("amount", 1), ("receiver", 0), ("date", 2), ("ref_no", 3)] },
      { pattern := r"your a\/c ([x\d]+) ? is credited by ([a-z\d\., ]+) .* as on:([\d\-\/]+).*",
        attributes := [("receiver", 0), ("amount", 1), ("date", 2)] }
     ]),
    ("debit",
     [
      { pattern := r"your vpa .+ linked to indian bank a/c no\. ([x\d]+) is debited for ([a-z\d\. ,]+) and credited to ([\Wa-z\d]+) \(upi ref no ([a-z\d]+)\)\..*",
        attributes := [("amount", 1), ("sender", 0), ("receiver", 2), ("ref_no", 3)] },
      { pattern := r"([a-z\d\., ]+) spent on .+ using .+ on ([\d\/ :]+) at ([a-z \d\W]+) from ac:([x\d]+)\..*",
        attributes := [("amount", 0), ("date", 1), ("receiver", 2), ("sender", 3)] }
     ])
  ]
  debit_keywords := debit_keywords_base ++ ["spent on"]
  credit_keywords := credit_keywords_base
  legal_tnx_keywords := legal_tnx_keywords_base
  illegal_tnx_keywords := illegal_tnx_keywords_base

/-- Class `SBIInbTransactionSMSDecoder` of `decoder.py`. -/
def SBIInbTransactionSMSDecoder : DecoderCfg String where
  patterns :=
  [
    ("credit",
     [
      { pattern := r"dear customer, your a\/c no\. ([x\d]+) is credited by ([a-z\.\d ,]+) on ([\d\-]+) by a/c linked to mobile .+ ?- ?([a-z \d]+) ?\(imps ref no ([\d]+)\)\..*",
        attributes := [("amount", 1), ("receiver", 0), ("sender", 3), ("date", 2), ("ref_no", 4)] }
     ])
  ]
  debit_keywords := debit_keywords_base
  credit_keywords := credit_keywords_base
  legal_tnx_keywords := legal_tnx_keywords_base
  illegal_tnx_keywords := illegal_tnx_keywords_base

/-- Class `AtmSBITransactionSMSDecoder` of `decoder.py`. -/
def AtmSBITransactionSMSDecoder : DecoderCfg String where
  patterns :=
  [
    ("debit",
     [
      { pattern := r"dear sbi customer, ([a-z\d\. ,]+) withdrawn at .+ from a/c ?([x\d]+) on ([a-z\d\-\/]+) transaction number ([a-z\d]+)\..*",
        attributes := [("amount", 0), ("sender", 1), ("date", 2), ("ref_no", 3)] },
      { pattern := r"dear customer, transaction number ([a-z\d]+) for ([a-z\d\., ]+) by sbi debit card ([x\d]+)( done)? at .+ on ([a-z\d]+).*",
        attributes := [("ref_no", 0), ("amount", 1), ("sender", 2), ("date", 4)] }
     ])
  ]
  debit_keywords := debit_keywords_base ++ ["dear customer, transaction number"]
  credit_keywords := credit_keywords_base
  legal_tnx_keywords := legal_tnx_keywords_base ++ ["dear customer, transaction number"]
  illegal_tnx_keywords := illegal_tnx_keywords_base

/-- Class `SPRCRDTransactionSMSDecoder` of `decoder.py`. -/
def SPRCRDTransactionSMSDecoder : DecoderCfg String where
  patterns := []
  debit_keywords := debit_keywords_base
  credit_keywords := credit_keywords_base
  legal_tnx_keywords := legal_tnx_keywords_base
  illegal_tnx_keywords := illegal_tnx_keywords_base

/-- Class `SBIDGTTransactionSMSDecoder` of `decoder.py`. -/
def SBIDGTTransactionSMSDecoder : DecoderCfg String where
  patterns := []
  debit_keywords := debit_keywords_base
  credit_keywords := credit_keywords_base
  legal_tnx_keywords := legal_tnx_keywords_base
  illegal_tnx_keywords := illegal_tnx_keywords_base

/-- Class `AxisBkTransactionSMSDecoder` of `decoder.py`. -/
def AxisBkTransactionSMSDecoder : DecoderCfg String where
  patterns := []
  debit_keywords := debit_keywords_base
  credit_keywords := credit_keywords_base
  legal_tnx_keywords := legal_tnx_keywords_base
  illegal_tnx_keywords := ["requested"]

/-- Class `RBISayTransactionSMSDecoder` of `decoder.py`. -/
def RBISayTransactionSMSDecoder : DecoderCfg String where
  patterns := []
  debit_keywords := debit_keywords_base
  credit_keywords := credit_keywords_base
  legal_tnx_keywords := legal_tnx_keywords_base
  illegal_tnx_keywords := ["failed digital transaction"]

/-- Class `HDFCBkTransactionSMSDecoder` of `decoder.py`. -/
def HDFCBkTransactionSMSDecoder : DecoderCfg String where
  patterns :=
  [
    ("credit",
     [
      { pattern := r"update: your a\/c ([x\d]+) credited with ([a-z\d \.,]+) on ([\d\-\/a-z]+) by a/c linked to mobile no .+ \(imps ref no. ([a-z\d]+)\).*",
        attributes := [("receiver", 0), ("amount", 1), ("date", 2), ("ref_no", 3)] },
      { pattern := r"update(:|!) ([a-z\d \.,]+) deposited in( hdfc bank)? a\/c ([x\d]+) on ([\d\-\/a-z]+) for .*",
        attributes := [("amount", 1), ("receiver", 3), ("date", 4)] },
      { pattern := r"hdfc bank: ([a-z \d\.,]+) credited to a\/c ([x\*\d]+) on ([a-z\d\- :]+) by a\/c linked to vpa ([a-z\W\d ]+) \(upi ref no  ([\d]+)\)\.",
        attributes := [("amount", 0), ("receiver", 1), ("date", 2), ("sender", 3), ("ref_no", 4)] },
      { pattern := r"alert: a\/c ([x\d]+) credited with ([a-z \d\.,]+) on ([a-z\d\/\.]+) at .*",
        attributes := [("amount", 1), ("receiver", 0), ("date", 2)] },
      { pattern := r"received  *hdfc bank upi payment:([a-z\d\., ]+) from ([a-z\W \d]+) on ([\d:\- \/]+)\|transaction id:([\d]+)\..*",
        attributes := [("amount", 0), ("sender", 1), ("date", 2), ("ref_no", 3)] }
     ]),
    ("debit",
     [
      { pattern := r"hdfc bank: ([a-z \d\.,]+) debited from a\/c ([x\*\d]+) on ([\d\-\/a-z]+) to (vpa|a\/c) ([a-z\W\d\* ]+) ?\(upi ref no\.? ([\d]+)\)\..*",
        attributes := [("amount", 0), ("sender", 1), ("receiver", 4), ("date", 2), ("ref_no", 5)] },
      { pattern := r"update: ([a-z\d\., ]+) debited from hdfc bank ([x\d]+) on ([a-z\d\-\/]+)\..*",
        attributes := [("amount", 0), ("sender", 1), ("date", 2)] },
      { pattern := r"update: ([a-z ,\.\d]+) debited from a\/c ([x\d]+) on ([a-z\d\-\/]+)\..*",
        attributes := [("amount", 0), ("sender", 1), ("date", 2)] },
      { pattern := "alert:you\x27ve withdrawn ([a-z\\d\\., ]+) via debit card ([x\\d]+) at ([a-z\\W\\d ]+) on ([\\d\\-:]+)\\..*",
        attributes := [("amount", 0), ("sender", 1), ("receiver", 2), ("date", 3)] },
      { pattern := r"([a-z\d\., ]+) debited from a\/c ([x\*\d]+) on ([\d\-\/]+) to vpa ([a-z\W\d ]+) ?\(upi ref no\.? ([\d]+)\)\..*",
        attributes := [("amount", 0), ("sender", 1), ("date", 2), ("receiver", 3), ("ref_no", 4)] }
     ])
  ]
  debit_keywords := debit_keywords_base
  credit_keywords := credit_keywords_base
  legal_tnx_keywords := legal_tnx_keywords_base
  illegal_tnx_keywords := illegal_tnx_keywords_base ++ ["request", "delivered"]

/-- Class `SBYONOTransactionSMSDecoder` of `decoder.py`. -/
def SBYONOTransactionSMSDecoder : DecoderCfg String where
  patterns := []
  debit_keywords := debit_keywords_base
  credit_keywords := credit_keywords_base
  legal_tnx_keywords := legal_tnx_keywords_base
  illegal_tnx_keywords := illegal_tnx_keywords_base

/-- Class `HDFCBNTransactionSMSDecoder` of `decoder.py`. -/
def HDFCBNTransactionSMSDecoder : DecoderCfg String where
  patterns := []
  debit_keywords := debit_keywords_base
  credit_keywords := credit_keywords_base
  legal_tnx_keywords := legal_tnx_keywords_base
  illegal_tnx_keywords := illegal_tnx_keywords_base ++ ["interest rate"]

/-- Class `SBIUpiTransactionSMSDecoder` of `decoder.py`. -/
def SBIUpiTransactionSMSDecoder : DecoderCfg String where
  patterns :=
  [
    ("debit",
     [
      { pattern := r"([a-z\d\., ]+) debited(@|!)sbi upi frm a\/c ?([x\d]+) on ([a-z\d]+) ref no ([\d]+)\..*",
        attributes := [("amount", 0), ("sender", 2), ("date", 3), ("ref_no", 4)] },
      { pattern := r".*a\/c ([x\d]+).*debited by ([a-z\d\., ]+) on( date)? ([a-z\d]+) transfer to ([a-z\d\W ]+) ref no ([\d]+)\..*",
        attributes := [("sender", 0), ("amount", 1), ("date", 3), ("receiver", 4), ("ref_no", 5)] }
     ]),
    ("credit",
     [
      { pattern := r"dear sbi upi user, your a\/c ?([x\d]+) credited (by|with) ([a-z\d\., ]+) on ([a-z\d]+) .*\(ref no ([\d]+)\)",
        attributes := [("receiver", 0), ("amount", 2), ("date", 3), ("ref_no", 4)] }
     ])
  ]
  debit_keywords := debit_keywords_base
  credit_keywords := credit_keywords_base
  legal_tnx_keywords := legal_tnx_keywords_base
  illegal_tnx_keywords := illegal_tnx_keywords_base

/-- Class `SBIPsgTransactionSMSDecoder` of `decoder.py`. -/
def SBIPsgTransactionSMSDecoder : DecoderCfg String where
  patterns :=
  [
    ("credit",
     [
      { pattern := r"dear customer, ([a-z \d\.,]+) credited to your a\/c no ([x\d]+) on ([\d\/]+).*",
        attributes := [("amount", 0), ("receiver", 1), ("date", 2)] }
     ])
  ]
  debit_keywords := debit_keywords_base
  credit_keywords := credit_keywords_base
  legal_tnx_keywords := legal_tnx_keywords_base
  illegal_tnx_keywords := illegal_tnx_keywords_base ++ ["avail bal in a/c"]

/-- Class `CBSSBITransactionSMSDecoder` of `decoder.py`. -/
def CBSSBITransactionSMSDecoder : DecoderCfg String where
  patterns :=
  [
    ("credit",
     [
      { pattern := r"your a\/?c ([x\d]+) credited ([a-z\d\., ]+) on ([\d\/]+).*",
        attributes := [("receiver", 0), ("amount", 1), ("date", 2)] },
      { pattern := r"dear customer, .+ of ([a-z\d\., ]+) has been credited to your a\/?c no\. ?([x\d]+) on ([\d\/]+).*",
        attributes := [("amount", 0), ("receiver", 1), ("date", 2)] }
     ]),
    ("debit",
     [
      { pattern := r"your a\/?c ([x\d]+) debited ([a-z\d\., ]+) on ([\d\/]+).*",
        attributes := [("sender", 0), ("amount", 1), ("date", 2)] },
      { pattern := r".*a\/c ([x\d]+) has a debit by (.+) of ([a-z\d,\. ]+) on ([\d\/]+)\..*",
        attributes := [("sender", 0), ("receiver", 1), ("amount", 2), ("date", 3)] }
     ])
  ]
  debit_keywords := debit_keywords_base ++ ["debit"]
  credit_keywords := credit_keywords_base
  legal_tnx_keywords := legal_tnx_keywords_base ++ ["debit"]
  illegal_tnx_keywords := illegal_tnx_keywords_base ++ ["request"]

/-- Class `HDFCLITransactionSMSDecoder` of `decoder.py`. -/
def HDFCLITransactionSMSDecoder : DecoderCfg String where
  patterns :=
  [
    ("debit",
     [
      { pattern := r"thank you! we have received your payment of ([a-z\d\., ]+) for .+ on ([\d\/]+).*",
        attributes := [("amount", 0), ("date", 1)] }
     ])
  ]
  debit_keywords := debit_keywords_base ++ ["we have received"]
  credit_keywords := credit_keywords_base
  legal_tnx_keywords := legal_tnx_keywords_base
  illegal_tnx_keywords := illegal_tnx_keywords_base

/-- Class `SBIOtpTransactionSMSDecoder` of `decoder.py`. -/
def SBIOtpTransactionSMSDecoder : DecoderCfg String where
  patterns := []
  debit_keywords := debit_keywords_base
  credit_keywords := credit_keywords_base
  legal_tnx_keywords := legal_tnx_keywords_base
  illegal_tnx_keywords := illegal_tnx_keywords_base

/-- Class `PSBankTransactionSMSDecoder` of `decoder.py`. -/
def PSBankTransactionSMSDecoder : DecoderCfg String where
  patterns :=
  [
    ("debit",
     [
      { pattern := r"([a-z \d\.,]+) debited from a\/c ([\*x\d]+).*([\d\- :]+)\..*",
        attributes := [("amount", 0), ("sender", 1), ("date", 2)] },
      { pattern := r".*a\/c no ([\*x\d]+) debited *.*with ([a-z \d\.,]+)--.*\(([\d\- :]+)\).*",
        attributes := [("receiver", 0), ("amount", 1), ("date", 2)] },
      { pattern := r"rtgs transaction with reference number ([a-z\d]+) for ([a-z\d\., ]+) *has been credited on ([a-z\d:\-]+) *to beneficiary.*",
        attributes := [("ref_no", 0), ("amount", 1), ("date", 2)] },
      { pattern := r".*vpa ([a-z\d\W ]+) linked to .* a\/c no\. ([x\d]+) is debited for ([a-z\d\., ]+) and credited to ([a-z\d\W ]+) \(upi ref no ([\d]+)\).*",
        attributes := [("sender", 1), ("amount", 2), ("receiver", 3), ("ref_no", 4)] },
      { pattern := r"your a\/c no\. ([a-z\d]+) is debited for ([a-z\d\., ]+) on ([\d\-]+) and credited to a\/c no\. ([a-z\d]+) \(upi ref no ([\d]+)\).*",
        attributes := [("sender", 0), ("amount", 1), ("date", 2), ("receiver", 3), ("ref_no", 4)] }
     ]),
    ("credit",
     [
      { pattern := r".*a\/c no ([\*x\d]+) credited with ([a-z \d\.,]+)--.*\(([\d\- :]+)\).*",
        attributes := [("receiver", 0), ("amount", 1), ("date", 2)] }
     ])
  ]
  debit_keywords := debit_keywords_base ++ ["rtgs transaction"]
  credit_keywords := credit_keywords_base
  legal_tnx_keywords := legal_tnx_keywords_base
  illegal_tnx_keywords := illegal_tnx_keywords_base ++ ["will be"]

/-- Class `AIRBnkTransactionSMSDecoder` of `decoder.py`. -/
def AIRBnkTransactionSMSDecoder : DecoderCfg String where
  patterns :=
  [
    ("debit",
     [
      { pattern := r".*charge of ([a-z\d\., ]+) .* for .* has been debited from your savings a\/c ([a-z\d]+).*",
        attributes := [("amount", 0), ("sender", 1)] },
      { pattern := r"hello! you have successfully deposited \? ([\d\.]+).*txn id # ([a-z\d]+) on ([a-z\d\- :]+)\..*",
        attributes := [("amount", 0), ("ref_no", 1), ("date", 2)] }
     ])
  ]
  debit_keywords := debit_keywords_base ++ ["to company"]
  credit_keywords := credit_keywords_base
  legal_tnx_keywords := legal_tnx_keywords_base
  illegal_tnx_keywords := illegal_tnx_keywords_base ++ ["registering"]

/-- Class `UnionbTransactionSMSDecoder` of `decoder.py`. -/
def UnionbTransactionSMSDecoder : DecoderCfg String where
  patterns :=
  [
    ("credit",
     [
      { pattern := r".*a\/c ([\*x\d]+) credited for ([a-z\d:,\. ]+) on ([\d\- :]+) .* ref no ([\d]+).*",
        attributes := [("receiver", 0), ("amount", 1), ("date", 2), ("ref_no", 3)] },
      { pattern := r".*a\/c ([\*x\d]+).* credited for ([a-z\d:,\. ]+) on ([\d\- :]+).*",
        attributes := [("receiver", 0), ("amount", 1), ("date", 2)] }
     ]),
    ("debit",
     [
      { pattern := r".*a\/c ([\*x\d]+) debited for ([a-z\d:,\. ]+) on ([\d\- :]+) by .* ref no ([\d]+).*",
        attributes := [("sender", 0), ("amount", 1), ("date", 2), ("ref_no", 3)] },
      { pattern := r".*a\/c ([\*x\d]+) debited for ([a-z\d:,\. ]+) on ([\d\- :]+).*",
        attributes := [("sender", 0), ("amount", 1), ("date", 2)] },
      { pattern := r".*a\/c no. ([\*x\d]+) is debited for ([a-z\d:,\. ]+) on ([\d\- :,a-z]+) \(upi ref no ([\d]+)\).*",
        attributes := [("sender", 0), ("amount", 1), ("date", 2), ("ref_no", 3)] }
     ])
  ]
  debit_keywords := debit_keywords_base
  credit_keywords := credit_keywords_base
  legal_tnx_keywords := legal_tnx_keywords_base
  illegal_tnx_keywords := illegal_tnx_keywords_base ++ ["otp"]

/-- Class `IDFCFbTransactionSMSDecoder` of `decoder.py`. -/
def IDFCFbTransactionSMSDecoder : DecoderCfg String where
  patterns :=
  [
    ("debit",
     [
      { pattern := r"received ([a-z\d\. ,]+) by cash on ([\d\/]+) vide ereceipt number ([a-z\d]+) towards your loan a\/c no\. ([x\d]+)\..*",
        attributes := [("amount", 0), ("date", 1), ("ref_no", 2), ("receiver", 3)] }
     ])
  ]
  debit_keywords := debit_keywords_base ++ ["towards your loan"]
  credit_keywords := credit_keywords_base
  legal_tnx_keywords := legal_tnx_keywords_base
  illegal_tnx_keywords := illegal_tnx_keywords_base ++ ["start a new income stream", "will be"]

/-- Class `ICIBnkTransactionSMSDecoder` of `decoder.py`. -/
def ICIBnkTransactionSMSDecoder : DecoderCfg String where
  patterns := []
  debit_keywords := debit_keywords_base
  credit_keywords := credit_keywords_base
  legal_tnx_keywords := legal_tnx_keywords_base
  illegal_tnx_keywords := illegal_tnx_keywords_base

/-- Class `AXISMRTranasctionSMSDecoder` of `decoder.py`. -/
def AXISMRTranasctionSMSDecoder : DecoderCfg String where
  patterns := []
  debit_keywords := debit_keywords_base
  credit_keywords := credit_keywords_base
  legal_tnx_keywords := legal_tnx_keywords_base
  illegal_tnx_keywords := illegal_tnx_keywords_base

/-- Class `SBICmpTransactionSMSDecoder` of `decoder.py`. -/
def SBICmpTransactionSMSDecoder : DecoderCfg String where
  patterns := []
  debit_keywords := debit_keywords_base
  credit_keywords := credit_keywords_base
  legal_tnx_keywords := legal_tnx_keywords_base
  illegal_tnx_keywords := illegal_tnx_keywords_base

/-- Class `SBGMBSTransactionSMSDecoder` of `decoder.py`. -/
def SBGMBSTransactionSMSDecoder : DecoderCfg String where
  patterns := []
  debit_keywords := debit_keywords_base
  credit_keywords := credit_keywords_base
  legal_tnx_keywords := legal_tnx_keywords_base
  illegal_tnx_keywords := illegal_tnx_keywords_base

/-- Class `PNBSmsTransactionSMSDecoder` of `decoder.py`. -/
def PNBSmsTransactionSMSDecoder : DecoderCfg String where
  patterns := []
  debit_keywords := debit_keywords_base
  credit_keywords := credit_keywords_base
  legal_tnx_keywords := legal_tnx_keywords_base
  illegal_tnx_keywords := illegal_tnx_keywords_base

/-- The registry `decoders` of `decoder.py` (dict insertion order kept). -/
def decoders : List (String × DecoderEntry) :=
  [
    ("paytmb", ⟨"PaytmTransactionSMSDecoder", PaytmTransactionSMSDecoder⟩),
    ("icicib", ⟨"IcicibTransactionSMSDecoder", IcicibTransactionSMSDecoder⟩),
    ("kotakb", ⟨"KotakbTransactionSMSDecoder", KotakbTransactionSMSDecoder⟩),
    ("indbnk", ⟨"IndbnkTransactionSMSDecoder", IndbnkTransactionSMSDecoder⟩),
    ("sbiinb", ⟨"SBIInbTransactionSMSDecoder", SBIInbTransactionSMSDecoder⟩),
    ("atmsbi", ⟨"AtmSBITransactionSMSDecoder", AtmSBITransactionSMSDecoder⟩),
    ("sprcrd", ⟨"SPRCRDTransactionSMSDecoder", SPRCRDTransactionSMSDecoder⟩),
    ("sbidgt", ⟨"SBIDGTTransactionSMSDecoder", SBIDGTTransactionSMSDecoder⟩),
    ("axisbk", ⟨"AxisBkTransactionSMSDecoder", AxisBkTransactionSMSDecoder⟩),
    ("rbisay", ⟨"RBISayTransactionSMSDecoder", RBISayTransactionSMSDecoder⟩),
    ("hdfcbk", ⟨"HDFCBkTransactionSMSDecoder", HDFCBkTransactionSMSDecoder⟩),
    ("sbyono", ⟨"SBYONOTransactionSMSDecoder", SBYONOTransactionSMSDecoder⟩),
    ("hdfcbn", ⟨"HDFCBNTransactionSMSDecoder", HDFCBNTransactionSMSDecoder⟩),
    ("sbiupi", ⟨"SBIUpiTransactionSMSDecoder", SBIUpiTransactionSMSDecoder⟩),
    ("sbipsg", ⟨"SBIPsgTransactionSMSDecoder", SBIPsgTransactionSMSDecoder⟩),
    ("cbssbi", ⟨"CBSSBITransactionSMSDecoder", CBSSBITransactionSMSDecoder⟩),
    ("hdfcli", ⟨"HDFCLITransactionSMSDecoder", HDFCLITransactionSMSDecoder⟩),
    ("sbiotp", ⟨"SBIOtpTransactionSMSDecoder", SBIOtpTransactionSMSDecoder⟩),
    ("psbank", ⟨"PSBankTransactionSMSDecoder", PSBankTransactionSMSDecoder⟩),
    ("airbnk", ⟨"AIRBnkTransactionSMSDecoder", AIRBnkTransactionSMSDecoder⟩),
    ("unionb", ⟨"UnionbTransactionSMSDecoder", UnionbTransactionSMSDecoder⟩),
    ("idfcfb", ⟨"IDFCFbTransactionSMSDecoder", IDFCFbTransactionSMSDecoder⟩),
    ("icibnk", ⟨"ICIBnkTransactionSMSDecoder", ICIBnkTransactionSMSDecoder⟩),
    ("axismr", ⟨"AXISMRTranasctionSMSDecoder", AXISMRTranasctionSMSDecoder⟩),
    ("sbicmp", ⟨"SBICmpTransactionSMSDecoder", SBICmpTransactionSMSDecoder⟩),
    ("sbgmbs", ⟨"SBGMBSTransactionSMSDecoder", SBGMBSTransactionSMSDecoder⟩),
    ("pnbsms", ⟨"PNBSmsTransactionSMSDecoder", PNBSmsTransactionSMSDecoder⟩)
  ]

/-!
### The batch driver `decode_smses`

The driver iterates the batch, looks the source of each message up in the
registry, decodes, validates the result, and `return`s (halting the whole
batch) on the first anomaly.  Its observable behaviour is the sequence of
printed lines, modelled as a list of `Report`s carrying the 1-based message
index the line prints (the `n`/percentage decoration is omitted).
-/

/-- One printed line of `decode_smses`. -/
inductive Report where
  | noDecoder (i : Nat) (address : String)
  | notImplemented (i : Nat) (className : String)
  | failedToClassify (i : Nat)
  | missingAttribute (i : Nat) (attrib : String)
  | unknownTnxType (i : Nat)
  | done (i : Nat)
deriving DecidableEq, Repr

/-- The lines that end the batch (`return` in the source); `done` is the
per-message progress line after which iteration continues. -/
def Report.isAnomaly : Report → Bool
  | .done _ => false
  | _ => true

/-- The tuple `attributes` of `decode_smses` (line 735). -/
def requiredAttributes : List String :=
  ["tnx_type", "sender", "receiver", "date", "ref_no", "amount"]

/-- What the `decode` of a decoder may hand to the driver: a dict, or the
`NotImplemented` sentinel the driver tests for with `is` (line 746).  No
subclass in the source overrides `decode`, so the registered decoders always
return a dict. -/
inductive PyRet where
  | dict (d : Dict)
  | notImplementedSentinel
deriving DecidableEq, Repr

/-- The registry call `decoder.decode(sms)`: every registered decoder uses the
base-class `decode`, which always returns a dict. -/
def registryDecode (M : String → String → Option (List (Option String)))
    (entry : DecoderEntry) (sms : SMS) : PyRet :=
  .dict (decode M entry.cfg sms)

/-- Python `x is True` on a dict value. -/
def isTrueVal : Option PyVal → Bool
  | some (.vBool true) => true
  | _ => false

/-- Python `data[SMS_TYPE_FIELD] == "unknown"` (line 767): the comparison the
source performs, on the `sms_type` entry. -/
def smsTypeEqUnknown (data : Dict) : Bool :=
  match dictGet data SMS_TYPE_FIELD with
  | some v => pyEq v (.vStr "unknown")
  | Option.none => false

/-- The loop body of `decode_smses` from message index `i` on (0-based; the
emitted reports carry `i + 1` as the source prints).  Each `return` of the
source is a list ending without a recursive call. -/
def decodeSmsesFrom (M : String → String → Option (List (Option String))) :
    Nat → List SMS → List Report
  | _, [] => []
  | i, sms :: rest =>
    match lookupAssoc decoders sms.address with
    | Option.none => [Report.noDecoder (i + 1) sms.address]
    | some entry =>
      match registryDecode M entry sms with
      | .notImplementedSentinel => [Report.notImplemented (i + 1) entry.className]
      | .dict data =>
        if dictContains data SMS_TYPE_FIELD = false then
          [Report.failedToClassify (i + 1)]
        else if isTrueVal (dictGet data SMS_TYPE_FIELD) then
          match requiredAttributes.find? (fun attrib => !dictContains data attrib) with
          | some attrib => [Report.missingAttribute (i + 1) attrib]
          | Option.none =>
            if smsTypeEqUnknown data then [Report.unknownTnxType (i + 1)]
            else Report.done (i + 1) :: decodeSmsesFrom M (i + 1) rest
        else Report.done (i + 1) :: decodeSmsesFrom M (i + 1) rest

/-- Function `decode_smses` of `decoder.py`, as the list of lines it prints. -/
def decode_smses (M : String → String → Option (List (Option String)))
    (smses : List SMS) : List Report :=
  decodeSmsesFrom M 0 smses

/-- A matcher under which no pattern matches; used to instantiate theorems at
inputs whose decoding never consults the matcher. -/
def matchNone : String → String → Option (List (Option String)) :=
  fun _ _ => Option.none

/-!
## Theorems for the specification claims
-/

/-- Claim C4: for every decoder and message, `isTransaction` is true iff at
least one legal keyword is a substring of the body and no illegal keyword is
a substring of the body; in particular a message containing a declared
illegal keyword yields false regardless of legal matches. -/
theorem c4_is_transaction_iff {α : Type} (cfg : DecoderCfg α) (sms : SMS) :
    (is_transaction_sms cfg sms = true ↔
      ((∃ k ∈ cfg.legal_tnx_keywords, pyContains sms.body k = true) ∧
       ∀ k ∈ cfg.illegal_tnx_keywords, pyContains sms.body k = false)) ∧
    (∀ k ∈ cfg.illegal_tnx_keywords, pyContains sms.body k = true →
      is_transaction_sms cfg sms = false) := by
  constructor
  · simp [is_transaction_sms, List.any_eq_true, List.all_eq_true]
  · intro k hk hc
    have hall : (cfg.illegal_tnx_keywords.all fun keyword =>
        !pyContains sms.body keyword) = false := by
      rw [List.all_eq_false]
      exact ⟨k, hk, by simp [hc]⟩
    simp [is_transaction_sms, hall]

/-- Witness for C4: scenario 3 of the specification — a body matching the
legal keyword `"debited"` but also the illegal keyword `"will be"` is not a
transaction for the Paytm decoder. -/
theorem c4_witness :
    is_transaction_sms PaytmTransactionSMSDecoder
      ⟨"paytmb", "an amount will be debited shortly"⟩ = false :=
  (c4_is_transaction_iff PaytmTransactionSMSDecoder
    ⟨"paytmb", "an amount will be debited shortly"⟩).2 "will be"
    (by decide) (by decide)

/-- Claim C5: direction classification returns `"debit"` as soon as any debit
keyword is contained in the body (the debit list is consulted first), returns
`"credit"` when no debit keyword but some credit keyword is contained, and
`"unknown"` when neither list has a match. -/
theorem c5_direction_order {α : Type} (cfg : DecoderCfg α) (sms : SMS) :
    ((∃ k ∈ cfg.debit_keywords, pyContains sms.body k = true) →
      get_tnx_type cfg sms = "debit") ∧
    ((∀ k ∈ cfg.debit_keywords, pyContains sms.body k = false) →
      (∃ k ∈ cfg.credit_keywords, pyContains sms.body k = true) →
      get_tnx_type cfg sms = "credit") ∧
    ((∀ k ∈ cfg.debit_keywords, pyContains sms.body k = false) →
      (∀ k ∈ cfg.credit_keywords, pyContains sms.body k = false) →
      get_tnx_type cfg sms = "unknown") := by
  refine ⟨?_, ?_, ?_⟩
  · rintro ⟨k, hk, hc⟩
    rcases hfind : cfg.debit_keywords.find? (fun keyword => pyContains sms.body keyword)
      with _ | v
    · rw [List.find?_eq_none] at hfind
      exact absurd hc (by simpa using hfind k hk)
    · simp [get_tnx_type, hfind]
  · intro hdeb ⟨k, hk, hc⟩
    have hnone : cfg.debit_keywords.find? (fun keyword => pyContains sms.body keyword)
        = Option.none := by
      rw [List.find?_eq_none]; intro x hx; simp [hdeb x hx]
    rcases hfind : cfg.credit_keywords.find? (fun keyword => pyContains sms.body keyword)
      with _ | v
    · rw [List.find?_eq_none] at hfind
      exact absurd hc (by simpa using hfind k hk)
    · simp [get_tnx_type, hnone, hfind]
  · intro hdeb hcred
    have hnone1 : cfg.debit_keywords.find? (fun keyword => pyContains sms.body keyword)
        = Option.none := by
      rw [List.find?_eq_none]; intro x hx; simp [hdeb x hx]
    have hnone2 : cfg.credit_keywords.find? (fun keyword => pyContains sms.body keyword)
        = Option.none := by
      rw [List.find?_eq_none]; intro x hx; simp [hcred x hx]
    simp [get_tnx_type, hnone1, hnone2]

/-- Witness for C5: a body containing both `"debited"` and `"credited"`
classifies as debit — the debit list is checked first. -/
theorem c5_witness :
    get_tnx_type PaytmTransactionSMSDecoder ⟨"paytmb", "debited and credited"⟩
      = "debit" :=
  (c5_direction_order PaytmTransactionSMSDecoder
    ⟨"paytmb", "debited and credited"⟩).1 ⟨"debited", by decide, by decide⟩

/-- Claim C8: if `isTransaction` is false, the decode result is exactly the
singleton dict holding the classification marker — neither the direction nor
any of the five extraction fields is present. -/
theorem c8_non_transaction_only_marker {α : Type}
    (M : α → String → Option (List (Option String))) (cfg : DecoderCfg α)
    (sms : SMS) (h : is_transaction_sms cfg sms = false) :
    decode M cfg sms = [(SMS_TYPE_FIELD, PyVal.vBool false)] := by
  simp [decode, h, dictSet]

/-- Witness for C8: scenario 2 of the specification — an OTP message is not a
transaction and decodes to the bare classification marker. -/
theorem c8_witness :
    decode matchNone PaytmTransactionSMSDecoder
      ⟨"paytmb", "your otp for login is 445566"⟩
      = [(SMS_TYPE_FIELD, PyVal.vBool false)] :=
  c8_non_transaction_only_marker matchNone PaytmTransactionSMSDecoder
    ⟨"paytmb", "your otp for login is 445566"⟩ (by decide)

/-- Claim C6: extraction is first-match-wins.  If the first pattern registered
for the classified direction matches (and even when a later pattern `q` also
matches), the decode result is obtained from the groups and field map of
the first pattern alone — the right-hand side does not mention `rest`, so the later
patterns are never consulted. -/
theorem c6_first_match_wins {α : Type}
    (M : α → String → Option (List (Option String))) (cfg : DecoderCfg α)
    (sms : SMS) (p q : Pattern α) (rest : List (Pattern α))
    (g g2 : List (Option String))
    (htx : is_transaction_sms cfg sms = true)
    (hpats : lookupAssoc cfg.patterns (get_tnx_type cfg sms) = some (p :: rest))
    (hm : M p.pattern sms.body = some g)
    (_hq : q ∈ rest) (_hm2 : M q.pattern sms.body = some g2) :
    decode M cfg sms =
      applyAttrs g p.attributes (setNullFields
        (dictSet (dictSet [] SMS_TYPE_FIELD (PyVal.vBool true)) TNX_TYPE_FIELD
          (PyVal.vStr (get_tnx_type cfg sms)))) := by
  simp [decode, htx, hpats, decodeLoop, hm]

/-- The matcher for the C6 witness: both registered patterns match, with
distinguishable groups. -/
def twoMatcher : String → String → Option (List (Option String)) :=
  fun p _ =>
    if p == "first" then some [some "a1"]
    else if p == "second" then some [some "a2"]
    else Option.none

/-- The configuration for the C6 witness: two debit patterns that both match
any debit body under `twoMatcher`. -/
def twoPatternCfg : DecoderCfg String where
  patterns :=
    [("debit",
      [{ pattern := "first", attributes := [("amount", 0)] },
       { pattern := "second", attributes := [("amount", 1)] }])]
  debit_keywords := debit_keywords_base
  credit_keywords := credit_keywords_base
  legal_tnx_keywords := legal_tnx_keywords_base
  illegal_tnx_keywords := illegal_tnx_keywords_base

/-- Witness for C6: with both patterns matching, the result carries the first
amount group of the first pattern. -/
theorem c6_witness :
    decode twoMatcher twoPatternCfg ⟨"x", "debited"⟩ =
      applyAttrs [some "a1"] [("amount", 0)] (setNullFields
        (dictSet (dictSet [] SMS_TYPE_FIELD (PyVal.vBool true)) TNX_TYPE_FIELD
          (PyVal.vStr (get_tnx_type twoPatternCfg ⟨"x", "debited"⟩)))) :=
  c6_first_match_wins twoMatcher twoPatternCfg ⟨"x", "debited"⟩
    { pattern := "first", attributes := [("amount", 0)] }
    { pattern := "second", attributes := [("amount", 1)] }
    [{ pattern := "second", attributes := [("amount", 1)] }]
    [some "a1"] [some "a2"] (by decide) (by decide) (by decide)
    (by decide) (by decide)

/-- The decidable load-time validation of the registry: every capture-group
index appearing in a field map is strictly below the number of capturing
groups of its paired regex source. -/
def fieldMapIndicesValid : Bool :=
  decoders.all fun e =>
    e.2.cfg.patterns.all fun dp =>
      dp.2.all fun p =>
        p.attributes.all fun ap => ap.2 < countGroups p.pattern

/-- Claim C9: for every decoder in the registry and every pattern in its table,
every capture-group index of the field map is a valid group index for the
paired matcher, so `groups[pos]` during extraction is never out of range. -/
theorem c9_group_indices_valid : fieldMapIndicesValid = true := by
  rfl

/-- If no pattern of the list matches the body, the pattern loop leaves the
result dict untouched. -/
theorem decodeLoop_of_no_match {α : Type}
    (M : α → String → Option (List (Option String))) (body : String) :
    ∀ (pats : List (Pattern α)) (result : Dict),
      (∀ p ∈ pats, M p.pattern body = Option.none) →
      decodeLoop M body pats result = result := by
  intro pats
  induction pats with
  | nil => intro result _; rfl
  | cons p rest ih =>
    intro result h
    have hp := h p (by simp)
    simp only [decodeLoop, hp]
    exact ih result fun q hq => h q (by simp [hq])

/-- Counterexample to **C2** as stated: for the registered `sbiinb` decoder
(which has no debit patterns) and a debited body, the message is a confirmed
transaction with direction `"debit"`, no pattern for that direction matches,
and yet the five extraction fields are *absent* from the result rather than
present with null values, and the batch driver *halts* with a
missing-attribute report instead of continuing to the next message. -/
theorem c2_counterexample :
    dictGet (decode matchNone SBIInbTransactionSMSDecoder
        ⟨"sbiinb", "your a/c is debited"⟩) SMS_TYPE_FIELD
      = some (PyVal.vBool true) ∧
    dictGet (decode matchNone SBIInbTransactionSMSDecoder
        ⟨"sbiinb", "your a/c is debited"⟩) TNX_TYPE_FIELD
      = some (PyVal.vStr "debit") ∧
    dictContains (decode matchNone SBIInbTransactionSMSDecoder
        ⟨"sbiinb", "your a/c is debited"⟩) SENDER_FIELD = false ∧
    dictContains (decode matchNone SBIInbTransactionSMSDecoder
        ⟨"sbiinb", "your a/c is debited"⟩) AMOUNT_FIELD = false ∧
    decode_smses matchNone
        [⟨"sbiinb", "your a/c is debited"⟩, ⟨"sprcrd", "hello"⟩]
      = [Report.missingAttribute 1 "sender"] := by
  decide

/-- Claim C2 (amended): for a confirmed transaction whose direction has no
matching registered pattern, the decode result consists of the classification
marker and the direction only — the five extraction fields are absent, not
null — and the batch driver halts at this message with a missing-attribute
report for `"sender"` (the first absent required field). -/
theorem c2_amended_no_pattern_fields_absent
    (M : String → String → Option (List (Option String)))
    (cfg : DecoderCfg String) (sms : SMS)
    (htx : is_transaction_sms cfg sms = true)
    (hnm : ∀ p ∈ (lookupAssoc cfg.patterns (get_tnx_type cfg sms)).getD [],
      M p.pattern sms.body = Option.none) :
    decode M cfg sms = [(SMS_TYPE_FIELD, PyVal.vBool true),
      (TNX_TYPE_FIELD, PyVal.vStr (get_tnx_type cfg sms))] ∧
    (∀ f ∈ [SENDER_FIELD, RECEIVER_FIELD, DATE_FIELD, REF_NO_FIELD, AMOUNT_FIELD],
      dictContains (decode M cfg sms) f = false) ∧
    (∀ (entry : DecoderEntry) (rest : List SMS) (i : Nat),
      lookupAssoc decoders sms.address = some entry → entry.cfg = cfg →
      decodeSmsesFrom M i (sms :: rest)
        = [Report.missingAttribute (i + 1) SENDER_FIELD]) := by
  have hdec : decode M cfg sms = [(SMS_TYPE_FIELD, PyVal.vBool true),
      (TNX_TYPE_FIELD, PyVal.vStr (get_tnx_type cfg sms))] := by
    simp only [decode, htx]
    rw [decodeLoop_of_no_match M sms.body _ _ hnm]
    simp [dictSet, SMS_TYPE_FIELD, TNX_TYPE_FIELD]
  refine ⟨hdec, ?_, ?_⟩
  · intro f hf
    fin_cases hf <;> simp [hdec, dictContains, dictGet, SMS_TYPE_FIELD,
      TNX_TYPE_FIELD, SENDER_FIELD, RECEIVER_FIELD, DATE_FIELD, REF_NO_FIELD,
      AMOUNT_FIELD]
  · intro entry rest i hlook hcfg
    simp only [decodeSmsesFrom, hlook, registryDecode, hcfg, hdec]
    simp [dictContains, dictGet, isTrueVal, requiredAttributes, SMS_TYPE_FIELD,
      TNX_TYPE_FIELD, SENDER_FIELD, List.find?]

/-- Witness for the amended C2 at the registered `sbiinb` decoder: the batch
halts at the no-pattern transaction with the missing-`sender` report. -/
theorem c2_amended_witness :
    decodeSmsesFrom matchNone 0 [⟨"sbiinb", "your a/c is debited"⟩]
      = [Report.missingAttribute 1 SENDER_FIELD] :=
  (c2_amended_no_pattern_fields_absent matchNone SBIInbTransactionSMSDecoder
      ⟨"sbiinb", "your a/c is debited"⟩ (by decide) (by decide)).2.2
    ⟨"SBIInbTransactionSMSDecoder", SBIInbTransactionSMSDecoder⟩ [] 0
    (by decide) rfl

/-- Claim C1 (defect evaluation): for the registered Paytm decoder and the body
`"successfully executed"`, the decode result is a confirmed transaction whose
direction resolved to `"unknown"`, yet the line-767 comparison of the driver
(`data[SMS_TYPE_FIELD] == "unknown"`, i.e. `True == "unknown"`) is false —
that check tests the classification marker, not the direction — and the batch
halts with a missing-`sender` report (no pattern list exists for direction
`"unknown"`, so the five fields are absent), never emitting the
unresolved-direction report the claim describes. -/
theorem c1_unknown_direction_bug :
    dictGet (decode matchNone PaytmTransactionSMSDecoder
        ⟨"paytmb", "successfully executed"⟩) SMS_TYPE_FIELD
      = some (PyVal.vBool true) ∧
    dictGet (decode matchNone PaytmTransactionSMSDecoder
        ⟨"paytmb", "successfully executed"⟩) TNX_TYPE_FIELD
      = some (PyVal.vStr "unknown") ∧
    smsTypeEqUnknown (decode matchNone PaytmTransactionSMSDecoder
        ⟨"paytmb", "successfully executed"⟩) = false ∧
    decode_smses matchNone [⟨"paytmb", "successfully executed"⟩]
      = [Report.missingAttribute 1 "sender"] := by
  decide

/-- Claim C3 (defect evaluation): the placeholder decoder registered for
`"sprcrd"` declares no rules, yet its inherited `decode` returns an ordinary
dict, never the `NotImplemented` sentinel the driver tests for — so a
transaction-looking message halts the batch with a missing-attribute report
(not the "is not implemented" report the claim describes), and a
non-transaction message is processed as a normal `done` outcome without
halting at all. -/
theorem c3_placeholder_bug :
    SPRCRDTransactionSMSDecoder.patterns = [] ∧
    lookupAssoc decoders "sprcrd"
      = some ⟨"SPRCRDTransactionSMSDecoder", SPRCRDTransactionSMSDecoder⟩ ∧
    registryDecode matchNone
        ⟨"SPRCRDTransactionSMSDecoder", SPRCRDTransactionSMSDecoder⟩
        ⟨"sprcrd", "debited"⟩ ≠ PyRet.notImplementedSentinel ∧
    decode_smses matchNone [⟨"sprcrd", "debited"⟩]
      = [Report.missingAttribute 1 "sender"] ∧
    decode_smses matchNone [⟨"sprcrd", "hello"⟩] = [Report.done 1] := by
  decide

/-- One step of the batch loop: either the head message is anomalous and the
output is that single terminal report, or the head is processed as `done` and
the loop continues on the tail from the next index. -/
theorem decodeSmsesFrom_cons
    (M : String → String → Option (List (Option String))) (i : Nat)
    (sms : SMS) (rest : List SMS) :
    (∃ r : Report, r.isAnomaly = true ∧
      decodeSmsesFrom M i (sms :: rest) = [r]) ∨
    decodeSmsesFrom M i (sms :: rest)
      = Report.done (i + 1) :: decodeSmsesFrom M (i + 1) rest := by
  simp only [decodeSmsesFrom, registryDecode]
  split
  · refine Or.inl ⟨_, ?_, rfl⟩; rfl
  · split
    · refine Or.inl ⟨_, ?_, rfl⟩; rfl
    · split
      · split
        · refine Or.inl ⟨_, ?_, rfl⟩; rfl
        · split
          · refine Or.inl ⟨_, ?_, rfl⟩; rfl
          · exact Or.inr rfl
      · exact Or.inr rfl

/-- The batch loop from any start index: a report with `isAnomaly` is always
the final element of the output — the loop stops right after emitting it. -/
theorem decodeSmsesFrom_halt
    (M : String → String → Option (List (Option String))) :
    ∀ (smses : List SMS) (i j : Nat) (r : Report),
      (decodeSmsesFrom M i smses).get? j = some r → r.isAnomaly = true →
      (decodeSmsesFrom M i smses).length = j + 1 := by
  intro smses
  induction smses with
  | nil => intro i j r hj _; simp [decodeSmsesFrom] at hj
  | cons sms rest ih =>
    intro i j r hj ha
    rcases decodeSmsesFrom_cons M i sms rest with ⟨r0, _, heq⟩ | heq
    · rw [heq] at hj ⊢
      cases j with
      | zero => rfl
      | succ j2 => simp at hj
    · rw [heq] at hj ⊢
      cases j with
      | zero =>
        simp only [List.get?] at hj
        cases hj
        simp [Report.isAnomaly] at ha
      | succ j2 =>
        simp only [List.get?] at hj
        simp only [List.length_cons]
        rw [ih (i + 1) j2 r hj ha]

/-- Claim C7: batch processing is fail-fast — whatever the matcher and the
batch, any anomalous report (unknown source, unimplemented decoder, missing
classification marker, missing required field, unresolved direction) is the
last line the driver emits: the output ends at the index of that message, so no
output is produced for (and no processing happens on) any later message. -/
theorem c7_halt_on_first_anomaly
    (M : String → String → Option (List (Option String))) (smses : List SMS)
    (j : Nat) (r : Report)
    (hj : (decode_smses M smses).get? j = some r) (ha : r.isAnomaly = true) :
    (decode_smses M smses).length = j + 1 :=
  decodeSmsesFrom_halt M smses 0 j r hj ha

/-- Witness for C7: scenario 4 of the specification — a batch whose second
message has an unregistered source produces exactly one `done` line and then
the unknown-source report, and nothing for the third message. -/
theorem c7_witness :
    (decode_smses matchNone
      [⟨"sprcrd", "hello"⟩, ⟨"unknownsrc", "x"⟩, ⟨"sprcrd", "hello"⟩]).length
        = 1 + 1 :=
  c7_halt_on_first_anomaly matchNone
    [⟨"sprcrd", "hello"⟩, ⟨"unknownsrc", "x"⟩, ⟨"sprcrd", "hello"⟩] 1
    (Report.noDecoder 2 "unknownsrc") (by decide) (by decide)

/-- Claim C10: extraction is anchored.  Instantiating `decode` with the regex
semantics of `re.match`, if every pattern registered for the classified
direction fails to match at the very beginning of the body — even though some
pattern does match a segment starting at a strictly later position — then no
pattern produces a match and none of the five extraction fields appears in
the result. -/
theorem c10_anchored_match (cfg : DecoderCfg Regex) (sms : SMS)
    (_hlater : ∃ p ∈ (lookupAssoc cfg.patterns (get_tnx_type cfg sms)).getD [],
      ∃ i, 0 < i ∧ matchesAt p.pattern sms.body.data i = true)
    (hstart : ∀ p ∈ (lookupAssoc cfg.patterns (get_tnx_type cfg sms)).getD [],
      matchesFromStart p.pattern sms.body.data = false) :
    (∀ p ∈ (lookupAssoc cfg.patterns (get_tnx_type cfg sms)).getD [],
      regexMatch p.pattern sms.body = Option.none) ∧
    (∀ f ∈ [SENDER_FIELD, RECEIVER_FIELD, DATE_FIELD, REF_NO_FIELD, AMOUNT_FIELD],
      dictContains (decode regexMatch cfg sms) f = false) := by
  have hnone : ∀ p ∈ (lookupAssoc cfg.patterns (get_tnx_type cfg sms)).getD [],
      regexMatch p.pattern sms.body = Option.none := by
    intro p hp
    simp [regexMatch, hstart p hp]
  refine ⟨hnone, ?_⟩
  intro f hf
  by_cases htx : is_transaction_sms cfg sms = true
  · have hdec : decode regexMatch cfg sms = [(SMS_TYPE_FIELD, PyVal.vBool true),
        (TNX_TYPE_FIELD, PyVal.vStr (get_tnx_type cfg sms))] := by
      simp only [decode, htx]
      rw [decodeLoop_of_no_match regexMatch sms.body _ _ hnone]
      simp [dictSet, SMS_TYPE_FIELD, TNX_TYPE_FIELD]
    fin_cases hf <;> simp [hdec, dictContains, dictGet, SMS_TYPE_FIELD,
      TNX_TYPE_FIELD, SENDER_FIELD, RECEIVER_FIELD, DATE_FIELD, REF_NO_FIELD,
      AMOUNT_FIELD]
  · have hfx : is_transaction_sms cfg sms = false := by
      cases h : is_transaction_sms cfg sms
      · rfl
      · exact absurd h htx
    have hdec : decode regexMatch cfg sms
        = [(SMS_TYPE_FIELD, PyVal.vBool false)] := by
      simp [decode, hfx, dictSet]
    fin_cases hf <;> simp [hdec, dictContains, dictGet, SMS_TYPE_FIELD,
      SENDER_FIELD, RECEIVER_FIELD, DATE_FIELD, REF_NO_FIELD, AMOUNT_FIELD]

/-- The pattern for the C10 witness: it matches exactly the one-character
segment `"a"`. -/
def anchorPattern : Pattern Regex where
  pattern := Regex.cls false [Char.ofNat 97]
  attributes := [("sender", 0)]

/-- The configuration for the C10 witness: one debit pattern, with `"b"` as
the legal and debit keyword so the body `"ba"` is a debit transaction. -/
def anchorCfg : DecoderCfg Regex where
  patterns := [("debit", [anchorPattern])]
  debit_keywords := ["b"]
  credit_keywords := credit_keywords_base
  legal_tnx_keywords := ["b"]
  illegal_tnx_keywords := []

/-- Witness for C10: the body `"ba"` contains a matching segment at offset 1
only, so the anchored matcher fails and no extraction field is produced. -/
theorem c10_witness :
    dictContains (decode regexMatch anchorCfg ⟨"x", "ba"⟩) SENDER_FIELD
      = false :=
  (c10_anchored_match anchorCfg ⟨"x", "ba"⟩
    ⟨anchorPattern, by decide, 1, by decide, by decide⟩
    (by decide)).2 SENDER_FIELD (by decide)

end SmsDecoder
